import Mathlib

/-!
Verification of the scheduling and change-detection core of the
`monitor-reddit` repository: a shallow embedding in Lean 4 of
`config_manager.py` (persistent schedule store) and `reddit_monitor.py`
(monitoring cycle and scheduler loop), with theorems settling the
spec's claims about them.

Timestamps are modelled as natural numbers counting seconds.  A value
stored in the JSON document as an ISO-8601 string is modelled by
`TimeVal`: `TimeVal.valid t` abstracts a string that
`datetime.fromisoformat` parses to the instant `t`, and
`TimeVal.corrupt s` an arbitrary string it fails to parse.  The source
calls `datetime.now()` several times inside one operation; the
embedding passes a single `now` for the whole operation (the standard
instantaneous-execution abstraction).
-/

set_option autoImplicit false

namespace MonitorReddit

/-- A stored timestamp cell: a parseable ISO string denoting instant `t`,
or a corrupt (unparseable) string. -/
inductive TimeVal where
  | valid (t : Nat)
  | corrupt (s : String)
deriving DecidableEq, Repr

/-- `datetime.fromisoformat` wrapped in try/except: the stored string
parses to an instant or the accessor's except-branch yields `none`. -/
def parseTimeVal : TimeVal → Option Nat
  | TimeVal.valid t => some t
  | TimeVal.corrupt _ => none

/-- The `monitor` sub-document of the configuration
(`config_manager.py`, `default_config`). -/
structure MonitorCfg where
  url : String
  interval_minutes : Nat
  data_directory : String
  enabled : Bool
  last_check_time : Option TimeVal
  last_successful_check : Option TimeVal
  next_scheduled_check : Option TimeVal
  total_checks : Nat
  failed_checks : Nat
  continuous_mode : Bool
deriving DecidableEq, Repr

/-- The `session` sub-document of the configuration. -/
structure SessionCfg where
  start_time : Option TimeVal
  end_time : Option TimeVal
  session_duration : Int
  checks_this_session : Nat
deriving DecidableEq, Repr

/-- The in-memory configuration document (`self.config`). -/
structure Config where
  monitor : MonitorCfg
  session : SessionCfg
  last_modified : Option Nat
deriving DecidableEq, Repr

/-- The `ConfigManager`'s state: the in-memory document plus the
persisted on-disk document (`none` before any successful save). -/
structure Store where
  config : Config
  disk : Option Config
deriving DecidableEq, Repr

/-- `ConfigManager.save_config`: stamps `last_modified` and writes the
whole document to disk (I/O assumed to succeed in this model). -/
def save_config (s : Store) (now : Nat) : Store :=
  let c := { s.config with last_modified := some now }
  { config := c, disk := some c }

/-- `ConfigManager.update_check_time(success)`: sets `last_check_time`,
conditionally `last_successful_check`, bumps the counters, recomputes
`next_scheduled_check = now + interval`, bumps the session counter and
persists.  `interval_minutes` is converted to seconds of model time. -/
def update_check_time (s : Store) (now : Nat) (success : Bool) : Store :=
  let m := s.config.monitor
  let m :=
    { m with
      last_check_time := some (TimeVal.valid now)
      last_successful_check :=
        if success then some (TimeVal.valid now) else m.last_successful_check
      total_checks := m.total_checks + 1
      failed_checks := if success then m.failed_checks else m.failed_checks + 1
      next_scheduled_check :=
        some (TimeVal.valid (now + m.interval_minutes * 60)) }
  let sess :=
    { s.config.session with
      checks_this_session := s.config.session.checks_this_session + 1 }
  save_config { s with config := { s.config with monitor := m, session := sess } } now

/-- `ConfigManager.get_last_check_time`: the stored cell parsed, `none`
when absent or unparseable. -/
def get_last_check_time (c : Config) : Option Nat :=
  match c.monitor.last_check_time with
  | none => none
  | some v => parseTimeVal v

/-- `ConfigManager.get_next_scheduled_check`: the stored cell parsed,
`none` when absent or unparseable. -/
def get_next_scheduled_check (c : Config) : Option Nat :=
  match c.monitor.next_scheduled_check with
  | none => none
  | some v => parseTimeVal v

/-- `ConfigManager.should_check_now`: always true outside continuous
mode; else true when no next check is scheduled or `now` has reached it. -/
def should_check_now (c : Config) (now : Nat) : Bool :=
  if !c.monitor.continuous_mode then
    true
  else
    match get_next_scheduled_check c with
    | none => true
    | some next => decide (next ≤ now)

/-- `ConfigManager.get_time_until_next_check`: `max 0 (next - now)`
in seconds, `0` when no next check is scheduled
(natural subtraction is exactly the clamped difference). -/
def get_time_until_next_check (c : Config) (now : Nat) : Nat :=
  match get_next_scheduled_check c with
  | none => 0
  | some next => next - now

/-- `ConfigManager.start_session`: reset the session sub-document and
persist. -/
def start_session (s : Store) (now : Nat) : Store :=
  let sess :=
    { s.config.session with
      start_time := some (TimeVal.valid now)
      end_time := none
      checks_this_session := 0 }
  save_config { s with config := { s.config with session := sess } } now

/-- `ConfigManager.end_session`: stamp the end time and duration when a
parseable start time exists; a missing or malformed start time is
swallowed (fields left unchanged); always persists. -/
def end_session (s : Store) (now : Nat) : Store :=
  let sess := s.config.session
  let sess :=
    match sess.start_time with
    | some (TimeVal.valid t0) =>
      { sess with
        end_time := some (TimeVal.valid now)
        session_duration := (now : Int) - (t0 : Int) }
    | _ => sess
  save_config { s with config := { s.config with session := sess } } now

/-- Fold a list of `(now, success)` check events through
`update_check_time` (a whole run of monitoring cycles). -/
def applyChecks (s : Store) : List (Nat × Bool) → Store
  | [] => s
  | (now, success) :: rest => applyChecks (update_check_time s now success) rest

/-! ### Deep merge of configuration documents (`ConfigManager._merge_config`)

The JSON documents handed to `_merge_config` are modelled by `JVal`;
an object is an insertion-ordered association list, matching Python's
dict semantics (assigning to an existing key keeps its position,
assigning to a new key appends). -/

/-- A JSON value as handled by `_merge_config`. -/
inductive JVal where
  | null
  | bool (b : Bool)
  | num (n : Int)
  | str (s : String)
  | arr (xs : List JVal)
  | obj (fields : List (String × JVal))

/-- `result[key]` lookup on an ordered dict. -/
def lookupKey : List (String × JVal) → String → Option JVal
  | [], _ => none
  | (k, v) :: rest, key => if k = key then some v else lookupKey rest key

/-- `result[key] = value` on an ordered dict: replace in place, else
append. -/
def setKey : List (String × JVal) → String → JVal → List (String × JVal)
  | [], key, v => [(key, v)]
  | (k, w) :: rest, key, v =>
    if k = key then (k, v) :: rest else (k, w) :: setKey rest key v

mutual

/-- `ConfigManager._merge_config(base, updates)`: iterate over the
update document's entries, folding each one in with `mergeStep`. -/
def mergeConfig : List (String × JVal) → List (String × JVal) →
    List (String × JVal)
  | base, [] => base
  | base, (key, v) :: rest => mergeConfig (mergeStep base key v) rest
termination_by _ upd => sizeOf upd

/-- One iteration of `_merge_config`'s loop: when the key is present in
the result and both its value and the update value are dicts, merge
recursively; otherwise assign the update value wholesale. -/
def mergeStep (base : List (String × JVal)) (key : String) : JVal →
    List (String × JVal)
  | JVal.obj usub =>
    match lookupKey base key with
    | some (JVal.obj bsub) => setKey base key (JVal.obj (mergeConfig bsub usub))
    | _ => setKey base key (JVal.obj usub)
  | v => setKey base key v
termination_by v => sizeOf v

end

/-! ### Change detection (`RedditMonitor.check_for_changes`) -/

/-- Strip leading and trailing whitespace, as Python's `int(str)` does
before parsing. -/
def stripSpaces (cs : List Char) : List Char :=
  ((cs.dropWhile Char.isWhitespace).reverse.dropWhile Char.isWhitespace).reverse

/-- Numeric value of a digit string. -/
def digitsVal (cs : List Char) : Nat :=
  cs.foldl (fun a c => a * 10 + (c.toNat - 48)) 0

/-- Python's `int(s)` on a string: optional sign and a nonempty run of
digits after stripping whitespace; `none` models `ValueError`. -/
def pyInt (s : String) : Option Int :=
  match stripSpaces s.toList with
  | [] => none
  | c :: rest =>
    if c = '-' then
      if rest ≠ [] ∧ rest.all Char.isDigit then some (-(digitsVal rest : Int)) else none
    else if c = '+' then
      if rest ≠ [] ∧ rest.all Char.isDigit then some ((digitsVal rest : Int)) else none
    else
      if (c :: rest).all Char.isDigit then some ((digitsVal (c :: rest) : Int)) else none

/-- `RedditMonitor.check_for_changes(new_data)`, with the file system
made explicit: `cells` is `none` when the CSV file does not exist, and
otherwise holds the `online_count` column of every data row (`""` for a
null count, as `csv.DictWriter` writes `None`).  `newCount` is
`new_data.get('online_count')`.  A falsy cell (`""`) or falsy new count
(`None`, and `0` coincides) is replaced by `0`; a nonempty cell that
`int()` cannot parse raises `ValueError`, caught to `True`. -/
def check_for_changes (cells : Option (List String)) (newCount : Option Int) : Bool :=
  match cells with
  | none => true
  | some rows =>
    match rows.getLast? with
    | none => true
    | some oldStr =>
      let oldParsed : Option Int := if oldStr = "" then some 0 else pyInt oldStr
      match oldParsed with
      | none => true
      | some oldC =>
        let newC : Int := match newCount with | none => 0 | some n => n
        decide (0 < (newC - oldC).natAbs)

/-! ### One monitoring cycle (`RedditMonitor.monitor_once`) -/

/-- The dict returned by `RedditMonitor.fetch_reddit_online_count`:
extracted counts on success, an error message on failure. -/
structure FetchData where
  timestamp : Nat
  subreddit : String
  online_count : Option Int
  member_count : Option Int
  success : Bool
  error : Option String
deriving DecidableEq, Repr

/-- One row of `reddit_online_count.csv` (`save_data_to_csv`'s
`row_data`). -/
structure Row where
  timestamp : Nat
  subreddit : String
  online_count : Option Int
  member_count : Option Int
  success : Bool
  error : String
deriving DecidableEq, Repr

/-- The row `save_data_to_csv` builds from a fetch result
(`data.get('error', '')` defaults the error cell to `""`). -/
def rowOf (d : FetchData) : Row :=
  { timestamp := d.timestamp
    subreddit := d.subreddit
    online_count := d.online_count
    member_count := d.member_count
    success := d.success
    error := match d.error with | none => "" | some e => e }

/-- The `online_count` cell of a row as `csv.DictReader` returns it:
`None` is written and read back as the empty string. -/
def cellOf (r : Row) : String :=
  match r.online_count with
  | none => ""
  | some n => toString n

/-- `RedditMonitor.save_data_to_csv(data)`: append one row to the CSV
(creating it on first write); `ioOk` is whether the file write
succeeds — on failure the method returns `None` and the file is
unchanged. -/
def save_data_to_csv (csv : Option (List Row)) (d : FetchData) (ioOk : Bool) :
    Option (List Row) :=
  if ioOk then some ((csv.getD []) ++ [rowOf d]) else none

/-- The world one `RedditMonitor` acts on: the CSV append log (`none`
when the file does not yet exist) and the `ConfigManager`'s store. -/
structure World where
  csv : Option (List Row)
  store : Store
deriving DecidableEq, Repr

/-- `RedditMonitor.monitor_once()`: one fetch-detect-append-update
cycle.  `d` is what `fetch_reddit_online_count` returned and `ioOk`
whether the CSV append succeeds.  On fetch failure the statistics are
updated with `success=False`, the failed row is still appended, and the
cycle reports failure; otherwise change detection runs (for logging
only), the row is appended, and the statistics are updated with the
append's outcome. -/
def monitor_once (w : World) (d : FetchData) (now : Nat) (ioOk : Bool) :
    World × Bool :=
  if d.success = false then
    let store1 := update_check_time w.store now false
    let csv1 :=
      match save_data_to_csv w.csv d ioOk with
      | some l => some l
      | none => w.csv
    ({ csv := csv1, store := store1 }, false)
  else
    let _has_changes :=
      check_for_changes (w.csv.map (fun rows => rows.map cellOf)) d.online_count
    let saved := save_data_to_csv w.csv d ioOk
    let ok := saved.isSome
    let csv1 :=
      match saved with
      | some l => some l
      | none => w.csv
    let store1 := update_check_time w.store now ok
    ({ csv := csv1, store := store1 }, ok)

/-! ### The scheduler loop (`RedditMonitor.start_monitoring`) -/

/-- The pre-loop catch-up sleep of `start_monitoring`: when a parseable
last check time is stored, sleep the remaining wait if it is positive
and under one interval (`self.interval`, in seconds); otherwise do not
sleep. -/
def preLoopSleep (c : Config) (now : Nat) (intervalSecs : Nat) : Nat :=
  match get_last_check_time c with
  | none => 0
  | some _ =>
    let t := get_time_until_next_check c now
    if 0 < t then (if t < intervalSecs then t else 0) else 0

/-- The external inputs of one trip round the scheduler loop: the
current time, what a fetch would return, and whether the CSV append
would succeed. -/
structure CycleIn where
  now : Nat
  data : FetchData
  ioOk : Bool
deriving Repr

/-- How the otherwise-infinite loop terminates: `KeyboardInterrupt` or
an unexpected exception escaping a loop iteration. -/
inductive LoopExit where
  | interrupt
  | unexpected
deriving DecidableEq, Repr

/-- Observable events of one `start_monitoring` run, in order. -/
inductive Ev where
  | startSession
  | preSleep (secs : Nat)
  | cycle
  | pollSleep
  | endSession
  | logStats
deriving DecidableEq, Repr

/-- One trip round the `while True` loop: run a cycle when due, else
poll-sleep 10 seconds. -/
def loopIter (w : World) (c : CycleIn) : World × Ev :=
  if should_check_now w.store.config c.now then
    let (w1, _) := monitor_once w c.data c.now c.ioOk
    (w1, Ev.cycle)
  else
    (w, Ev.pollSleep)

/-- The loop body run over a finite script of trips (after which the
scripted `LoopExit` arrives at the next sleep boundary). -/
def runLoop (w : World) : List CycleIn → World × List Ev
  | [] => (w, [])
  | c :: rest =>
    let (w1, e) := loopIter w c
    let (w2, es) := runLoop w1 rest
    (w2, e :: es)

/-- `RedditMonitor.start_monitoring()`: start a session, do the bounded
catch-up sleep, run the loop until `exitKind` ends it
(`KeyboardInterrupt` and unexpected exceptions are both caught), and in
the `finally` block end the session and log the final statistics. -/
def start_monitoring (w : World) (startNow : Nat) (intervalSecs : Nat)
    (script : List CycleIn) (exitKind : LoopExit) (endNow : Nat) :
    World × List Ev :=
  let store1 := start_session w.store startNow
  let sleep := preLoopSleep store1.config startNow intervalSecs
  let w1 : World := { w with store := store1 }
  let (w2, es) := runLoop w1 script
  let _ := exitKind
  let store3 := end_session w2.store endNow
  ({ w2 with store := store3 },
    Ev.startSession :: Ev.preSleep sleep :: (es ++ [Ev.endSession, Ev.logStats]))

/-! ## Theorems settling the claims -/

/-- C1: one call to `update_check_time success` sets `last_check_time`
to the current time, sets `last_successful_check` to that same time
exactly when `success` is true (leaving it unchanged otherwise),
increments `total_checks` by exactly 1, increments `failed_checks` by
exactly 1 exactly when `success` is false, sets `next_scheduled_check`
to `now + interval` — so that immediately afterwards the next scheduled
check equals the last check time plus the interval — increments the
session check counter by exactly 1, and persists the document. -/
theorem update_check_time_spec (s : Store) (now : Nat) (success : Bool) :
    let s' := update_check_time s now success
    s'.config.monitor.last_check_time = some (TimeVal.valid now) ∧
    s'.config.monitor.last_successful_check =
      (if success then some (TimeVal.valid now)
       else s.config.monitor.last_successful_check) ∧
    s'.config.monitor.total_checks = s.config.monitor.total_checks + 1 ∧
    s'.config.monitor.failed_checks =
      (if success then s.config.monitor.failed_checks
       else s.config.monitor.failed_checks + 1) ∧
    s'.config.monitor.next_scheduled_check =
      some (TimeVal.valid (now + s.config.monitor.interval_minutes * 60)) ∧
    get_next_scheduled_check s'.config =
      (get_last_check_time s'.config).map
        (fun t => t + s.config.monitor.interval_minutes * 60) ∧
    s'.config.session.checks_this_session =
      s.config.session.checks_this_session + 1 ∧
    s'.disk = some s'.config := by
  refine ⟨rfl, rfl, rfl, rfl, rfl, ?_, rfl, rfl⟩
  simp [update_check_time, save_config, get_next_scheduled_check,
    get_last_check_time, parseTimeVal]

/-- Helper for C2: `update_check_time` preserves
`failed_checks ≤ total_checks`. -/
theorem update_check_time_failed_le (s : Store) (now : Nat) (success : Bool)
    (h : s.config.monitor.failed_checks ≤ s.config.monitor.total_checks) :
    (update_check_time s now success).config.monitor.failed_checks ≤
      (update_check_time s now success).config.monitor.total_checks := by
  simp only [update_check_time, save_config]
  cases success <;> simp <;> try omega

/-- Helper for C2: `applyChecks` preserves
`failed_checks ≤ total_checks`. -/
theorem applyChecks_failed_le (script : List (Nat × Bool)) :
    ∀ s : Store,
      s.config.monitor.failed_checks ≤ s.config.monitor.total_checks →
      (applyChecks s script).config.monitor.failed_checks ≤
        (applyChecks s script).config.monitor.total_checks := by
  induction script with
  | nil => intro s h; exact h
  | cons p rest ih =>
    intro s h
    exact ih (update_check_time s p.1 p.2) (update_check_time_failed_le s p.1 p.2 h)

/-- C2: starting from any state whose `failed_checks` does not exceed
`total_checks` (encoded as `failed = f`, `total = f + d`, which covers
the all-zero defaults with `f = d = 0`), every sequence of
`update_check_time` calls keeps `failed_checks ≤ total_checks`; as the
sequence is arbitrary, the invariant holds after every call. -/
theorem failed_le_total_invariant (s : Store) (f d : Nat)
    (script : List (Nat × Bool)) :
    let s0 : Store :=
      { s with config := { s.config with monitor :=
        { s.config.monitor with failed_checks := f, total_checks := f + d } } }
    (applyChecks s0 script).config.monitor.failed_checks ≤
      (applyChecks s0 script).config.monitor.total_checks := by
  intro s0
  exact applyChecks_failed_le script s0 (by simp [s0])

/-- C3: `should_check_now` is true unconditionally when
`continuous_mode` is false; in continuous mode it is true when no next
check is scheduled (first-ever check), equals `next ≤ now` when one is,
and in particular is false for every strictly future scheduled time
`now + k + 1`. -/
theorem should_check_now_spec (c : Config) (now t k : Nat) :
    (should_check_now
      { c with monitor := { c.monitor with continuous_mode := false } }
      now = true) ∧
    (should_check_now
      { c with monitor := { c.monitor with
        continuous_mode := true, next_scheduled_check := none } }
      now = true) ∧
    (should_check_now
      { c with monitor := { c.monitor with
        continuous_mode := true,
        next_scheduled_check := some (TimeVal.valid t) } }
      now = decide (t ≤ now)) ∧
    (should_check_now
      { c with monitor := { c.monitor with
        continuous_mode := true,
        next_scheduled_check := some (TimeVal.valid (now + k + 1)) } }
      now = false) := by
  refine ⟨?_, ?_, ?_, ?_⟩ <;>
    (simp [should_check_now, get_next_scheduled_check, parseTimeVal]; try omega)

/-- C10: a stored `next_scheduled_check` string that does not parse as
a timestamp makes `get_next_scheduled_check` return `none` instead of
raising, so at the public interface it behaves exactly like an unset
one: `should_check_now` is true and `get_time_until_next_check` is 0. -/
theorem corrupt_next_check_spec (c : Config) (s : String) (now : Nat) :
    let c' := { c with monitor := { c.monitor with
      next_scheduled_check := some (TimeVal.corrupt s) } }
    get_next_scheduled_check c' = none ∧
    should_check_now c' now = true ∧
    get_time_until_next_check c' now = 0 := by
  refine ⟨rfl, ?_, rfl⟩
  simp [should_check_now, get_next_scheduled_check, parseTimeVal]

/-- C4: `_merge_config` satisfies the identity law — merging an empty
update document returns the base unchanged — and merges nested maps
key-by-key recursively while replacing scalars and arrays wholesale:
merging `{a: {y: 99, z: 4}, c: 5}` into `{a: {x: 1, y: 2}, b: 3}`
yields `{a: {x: 1, y: 99, z: 4}, b: 3, c: 5}`, and an array value is
replaced, not merged. -/
theorem merge_config_spec :
    (∀ base : List (String × JVal), mergeConfig base [] = base) ∧
    (mergeConfig
        [("a", JVal.obj [("x", JVal.num 1), ("y", JVal.num 2)]),
         ("b", JVal.num 3)]
        [("a", JVal.obj [("y", JVal.num 99), ("z", JVal.num 4)]),
         ("c", JVal.num 5)] =
      [("a", JVal.obj [("x", JVal.num 1), ("y", JVal.num 99), ("z", JVal.num 4)]),
       ("b", JVal.num 3), ("c", JVal.num 5)]) ∧
    (mergeConfig [("a", JVal.arr [JVal.num 3])]
        [("a", JVal.arr [JVal.num 1, JVal.num 2])] =
      [("a", JVal.arr [JVal.num 1, JVal.num 2])]) := by
  refine ⟨fun base => by simp [mergeConfig], ?_, ?_⟩ <;>
    simp [mergeConfig, mergeStep, lookupKey, setKey]

/-- C5, counterexample: the claim says a missing or unparseable prior
count is treated as zero, making the result `true` iff the absolute
difference is nonzero.  At a prior record whose stored count is the
unparseable string `"abc"` and a missing new count, both counts would
be treated as zero — difference zero — yet `check_for_changes` returns
`true` (the `ValueError` branch returns `True` unconditionally). -/
theorem check_for_changes_claim_counterexample :
    check_for_changes (some ["abc"]) none = true ∧
    (((none : Option Int).getD 0) - ((pyInt "abc").getD 0)).natAbs = 0 ∧
    ¬ (check_for_changes (some ["abc"]) none = true ↔
       (((none : Option Int).getD 0) - ((pyInt "abc").getD 0)).natAbs ≠ 0) := by
  decide

/-- C5, amended: with a prior record present, a missing (empty) stored
count is treated as zero and the result is `true` iff the absolute
difference is nonzero; the same holds when the stored count parses as
an integer; but a nonempty stored count that does not parse makes the
result `true` unconditionally. -/
theorem check_for_changes_amended (pre : List String) (oldStr : String)
    (newCount : Option Int) :
    (oldStr = "" →
      check_for_changes (some (pre ++ [oldStr])) newCount =
        decide (0 < (newCount.getD 0).natAbs)) ∧
    (∀ o : Int, pyInt oldStr = some o → oldStr ≠ "" →
      check_for_changes (some (pre ++ [oldStr])) newCount =
        decide (0 < (newCount.getD 0 - o).natAbs)) ∧
    (pyInt oldStr = none → oldStr ≠ "" →
      check_for_changes (some (pre ++ [oldStr])) newCount = true) := by
  refine ⟨?_, ?_, ?_⟩
  · intro h
    subst h
    simp [check_for_changes]
    cases newCount <;> simp
  · intro o ho hne
    simp [check_for_changes, hne, ho]
    cases newCount <;> simp
  · intro ho hne
    simp [check_for_changes, hne, ho]

/-- C5, witness for the amended theorem: at the prior count `"150"` and
new count `200`, parsing succeeds and a change is reported. -/
theorem check_for_changes_amended_witness :
    pyInt "150" = some 150 ∧
    check_for_changes (some ["150"]) (some 200) = true := by
  refine ⟨by decide, ?_⟩
  have h := (check_for_changes_amended [] "150" (some 200)).2.1 150
    (by decide) (by decide)
  simp only [List.nil_append] at h
  rw [h]
  decide

/-- C6: when the fetch succeeds (and the file write works), the
cycle's row is appended whatever the prior log contents — so whatever
`check_for_changes` returned — and two consecutive cycles with
identical extracted counts append two rows, not one. -/
theorem monitor_once_always_appends (w : World) (d : FetchData)
    (now now2 : Nat) :
    let okData : FetchData := { d with success := true }
    let r1 := monitor_once w okData now true
    let r2 := monitor_once r1.1 okData now2 true
    r1.1.csv = some ((w.csv.getD []) ++ [rowOf okData]) ∧
    r1.2 = true ∧
    r2.1.csv = some ((w.csv.getD []) ++ [rowOf okData, rowOf okData]) ∧
    (r2.1.csv.getD []).length = (w.csv.getD []).length + 2 := by
  refine ⟨rfl, rfl, ?_, ?_⟩ <;>
    simp [monitor_once, save_data_to_csv]

/-- C7: when the fetch fails, `monitor_once` updates the statistics
with `success=False` (so both `total_checks` and `failed_checks` grow
by one and the document is persisted), still appends a row with
`success=False` carrying the error message to the same log, and
returns `false` (it is a total function: no exception escapes to the
scheduling loop). -/
theorem monitor_once_failure_path (w : World) (d : FetchData) (now : Nat)
    (errMsg : String) (ioOk : Bool) :
    let badData : FetchData := { d with success := false, error := some errMsg }
    let r := monitor_once w badData now ioOk
    r.2 = false ∧
    r.1.store.config.monitor.failed_checks =
      w.store.config.monitor.failed_checks + 1 ∧
    r.1.store.config.monitor.total_checks =
      w.store.config.monitor.total_checks + 1 ∧
    r.1.store.disk = some r.1.store.config ∧
    (monitor_once w badData now true).1.csv =
      some ((w.csv.getD []) ++ [rowOf badData]) ∧
    (rowOf badData).success = false ∧
    (rowOf badData).error = errMsg := by
  refine ⟨rfl, ?_, ?_, rfl, ?_, rfl, rfl⟩ <;>
    simp [monitor_once, update_check_time, save_config, save_data_to_csv]

/-- C8: with a persisted last check time, the pre-loop catch-up sleep
equals the remaining wait `next - now` exactly when that wait is
positive and strictly below one full interval, and is zero otherwise;
the sleep never exceeds one interval for any state; and a stored next
check at or before `now` (encoded as `now - k`) gives a zero sleep, an
immediate check. -/
theorem pre_loop_sleep_spec (c : Config) (t0 now intervalSecs next k : Nat) :
    let cBase := { c with monitor := { c.monitor with
      last_check_time := some (TimeVal.valid t0) } }
    let cFut := { cBase with monitor := { cBase.monitor with
      next_scheduled_check := some (TimeVal.valid next) } }
    let cPast := { cBase with monitor := { cBase.monitor with
      next_scheduled_check := some (TimeVal.valid (now - k)) } }
    (preLoopSleep cFut now intervalSecs =
      if 0 < next - now ∧ next - now < intervalSecs then next - now else 0) ∧
    preLoopSleep c now intervalSecs ≤ intervalSecs ∧
    preLoopSleep cPast now intervalSecs = 0 := by
  refine ⟨?_, ?_, ?_⟩
  · simp only [preLoopSleep, get_last_check_time, get_time_until_next_check,
      get_next_scheduled_check, parseTimeVal]
    split_ifs <;> omega
  · unfold preLoopSleep
    split
    · exact Nat.zero_le _
    · dsimp only
      split_ifs <;> omega
  · simp [preLoopSleep, get_last_check_time, get_time_until_next_check,
      get_next_scheduled_check, parseTimeVal, Nat.sub_sub_self]

/-- Helper for C9: the loop body only ever emits cycle or poll-sleep
events, never a session end. -/
theorem runLoop_no_endSession (script : List CycleIn) :
    ∀ w : World, Ev.endSession ∉ (runLoop w script).2 := by
  induction script with
  | nil => intro w; simp [runLoop]
  | cons c rest ih =>
    intro w
    simp only [runLoop, loopIter]
    by_cases h : should_check_now w.store.config c.now = true <;>
      simp [h, List.mem_cons, ih]

/-- C9: however the loop terminates — interrupt or unexpected
exception, after any script of iterations — the run's event trace
contains exactly one session-end event, and it is followed only by the
final statistics logging: cleanup is guaranteed, not best-effort. -/
theorem start_monitoring_cleanup (w : World) (startNow intervalSecs : Nat)
    (script : List CycleIn) (exitKind : LoopExit) (endNow : Nat) :
    let tr := (start_monitoring w startNow intervalSecs script exitKind endNow).2
    tr.count Ev.endSession = 1 ∧
    ∃ pre : List Ev,
      tr = pre ++ [Ev.endSession, Ev.logStats] ∧ Ev.endSession ∉ pre := by
  intro tr
  have hmem := runLoop_no_endSession script
    { w with store := start_session w.store startNow }
  constructor
  · show List.count _ _ = 1
    simp [tr, start_monitoring, List.count_append, List.count_cons,
      List.count_eq_zero.mpr (hmem)]
  · refine ⟨Ev.startSession :: Ev.preSleep
      (preLoopSleep (start_session w.store startNow).config startNow
        intervalSecs) ::
      (runLoop { w with store := start_session w.store startNow } script).2,
      ?_, ?_⟩
    · simp [tr, start_monitoring]
    · simp [List.mem_cons, hmem]

end MonitorReddit
